import Mathlib

/-!
Verification of the trekk-tribe notification fan-out and delivery pipeline.

Shallow embedding of:
- `services/api/src/models/Notification.ts` (the persistent record),
- `services/api/src/utils/notificationService.ts` (`NotificationService`:
  `createNotification`, `sendEmailNotification`, `notifyTripJoin`,
  `notifyTripLeave`, `notifyTripDeleted`, `notifyTripUpdate`, `getUnreadCount`,
  `markAsRead`, `getUserNotifications`),
- `services/api/src/routes/notifications.ts` (the `mark-read`, `mark-all-read`
  and `delete` route handlers).

Modelling conventions:
- Mongo ObjectIds are `Nat`; a raw id string arriving over HTTP is an
  `Option Nat` (`none` models a string rejected by `new Types.ObjectId(id)` /
  `Types.ObjectId.isValid`).
- The Mongo collection is a `List Notification` kept in insertion order plus
  the next fresh id.  `createdAt` is taken from the strictly increasing id
  counter, so descending `createdAt` order coincides with the reverse of the
  store order (`sort({ createdAt: -1 })` below is `List.reverse` of the
  filtered store).  `updatedAt` is managed by mongoose and read by no code
  under verification, so it is not modelled.
- Fallibility of the outside world is an oracle in `Env`: whether an SMTP
  transporter is configured, whether `User.findById` finds the recipient,
  whether `sendMail` succeeds for a recipient, and whether `Notification.create`
  is rejected by the store for a recipient (a StoreFailure).  The Socket.IO
  emit in `createNotification` does not touch the persistent store and no
  claim concerns the realtime channel, so it is not modelled as state.
- JSON object literals returned to clients that claims inspect field-by-field
  (the `pagination` object of `getUserNotifications`) are modelled as
  string-keyed association lists, exactly the keys the source constructs.
-/

/-- `NotificationType` from `models/Notification.ts`: the closed `enum` of the
`type` field. -/
inductive NotificationType where
  | trip_join
  | trip_leave
  | trip_update
  | trip_delete
  | trip_reminder
  | system
deriving DecidableEq, Repr

/-- The `data` subdocument of a notification (`models/Notification.ts`):
optional trip id, actor id, actor name, trip title, plus the `changes` list
that `notifyTripUpdate` adds.  Absent fields are `none`. -/
structure NData where
  tripId : Option Nat := none
  actorId : Option Nat := none
  actorName : Option String := none
  tripTitle : Option String := none
  changes : Option (List String) := none
deriving DecidableEq, Repr

/-- A stored notification document (`models/Notification.ts`).  `emailSent` is
the email-mirror flag, default `false`; `read` defaults `false`. -/
structure Notification where
  id : Nat
  userId : Nat
  type : NotificationType
  title : String
  message : String
  data : NData
  read : Bool
  emailSent : Bool
  createdAt : Nat
deriving DecidableEq, Repr

/-- The notification collection: documents in insertion order and the next
fresh ObjectId. -/
structure DB where
  notifs : List Notification
  nextId : Nat
deriving DecidableEq, Repr

/-- Oracle for the fallible collaborators of `NotificationService` (see the
modelling conventions above). -/
structure Env where
  emailTransporter : Bool
  users : Nat → Option String
  smtpFails : Nat → Bool
  insertFails : Nat → Bool

/-- The only error that escapes `createNotification`: a rejected
`Notification.create` (email errors are swallowed inside
`sendEmailNotification`). -/
inductive Err where
  | storeFailure
deriving DecidableEq, Repr

/-- Argument record of `NotificationService.createNotification`
(the `NotificationData` interface). -/
structure CreateArgs where
  userId : Nat
  type : NotificationType
  title : String
  message : String
  data : NData := {}
  sendEmail : Bool := false

/-- An HTTP response as far as the claims observe it: status code and the
message or error string of the JSON body. -/
structure Response where
  status : Nat
  message : String
deriving DecidableEq, Repr

/-- The projection of a notification that fan-out claims compare: recipient,
kind and context payload (flags and bookkeeping fields excluded). -/
def notifProj (n : Notification) : Nat × NotificationType × NData :=
  (n.userId, n.type, n.data)

/-- `Notification.create({...})` inside `createNotification`: appends a fresh
document with `read: false`, `emailSent: false`. -/
def insertNotif (args : CreateArgs) (db : DB) : Notification × DB :=
  let n : Notification :=
    { id := db.nextId, userId := args.userId, type := args.type,
      title := args.title, message := args.message, data := args.data,
      read := false, emailSent := false, createdAt := db.nextId }
  (n, { notifs := db.notifs ++ [n], nextId := db.nextId + 1 })

/-- `Notification.findByIdAndUpdate(id, { emailSent: true })` at the end of
`sendEmailNotification`. -/
def updateEmailSent (nid : Nat) (db : DB) : DB :=
  { db with notifs := db.notifs.map fun n =>
      if n.id = nid then { n with emailSent := true } else n }

/-- `NotificationService.sendEmailNotification`: looks the recipient up, sends
the mail, and marks the mirror flag on success.  Its own `try/catch` logs and
swallows every error, so this function is total and never fails the caller. -/
def sendEmailNotification (env : Env) (n : Notification) (db : DB) : DB :=
  match env.users n.userId with
  | none => db
  | some _addr =>
    if env.smtpFails n.userId then db else updateEmailSent n.id db

/-- `NotificationService.createNotification`: insert, Socket.IO emit (no store
effect), then the optional email mirror.  The `catch` logs and rethrows, so a
store rejection propagates as `Err.storeFailure` with the store unchanged;
nothing after a successful insert can throw. -/
def createNotification (env : Env) (args : CreateArgs) (db : DB) :
    Except Err (Notification × DB) :=
  if env.insertFails args.userId then .error .storeFailure
  else
    let r := insertNotif args db
    let db2 := if args.sendEmail && env.emailTransporter then
        sendEmailNotification env r.1 r.2
      else r.2
    .ok (r.1, db2)

/-- `NotificationService.getUnreadCount`:
`Notification.countDocuments({ userId, read: false })`. -/
def getUnreadCount (u : Nat) (db : DB) : Nat :=
  (db.notifs.filter fun n => n.userId == u && !n.read).length

/-- `NotificationService.markAsRead`:
`Notification.updateMany({ _id: { $in: ids } }, { read: true })` — note the
filter carries no `userId` clause; ownership is checked by the route. -/
def markAsRead (ids : List Nat) (db : DB) : DB :=
  { db with notifs := db.notifs.map fun n =>
      if decide (n.id ∈ ids) then { n with read := true } else n }

/-- Result of `NotificationService.getUserNotifications`: the page of items,
the `pagination` object (string-keyed, exactly the keys the source builds),
and the unread count. -/
structure NotifResult where
  notifications : List Notification
  pagination : List (String × Nat)
  unreadCount : Nat
deriving DecidableEq, Repr

/-- `NotificationService.getUserNotifications`: filter by recipient, sort by
`createdAt` descending (the reverse of insertion order, see conventions),
`skip((page-1)*limit)`, `limit(limit)`; `pagination` is
`{ page, limit, total, pages: Math.ceil(total/limit) }` where the `Nat`
ceiling `(total + limit - 1) / limit` equals `Math.ceil` for positive
`limit`. -/
def getUserNotifications (u : Nat) (page limit : Nat) (db : DB) : NotifResult :=
  let skip := (page - 1) * limit
  let mine := db.notifs.filter fun n => n.userId == u
  let total := mine.length
  { notifications := (mine.reverse.drop skip).take limit,
    pagination :=
      [("page", page), ("limit", limit), ("total", total),
        ("pages", (total + limit - 1) / limit)],
    unreadCount := getUnreadCount u db }

/-- Parsing of the `notificationIds` strings in the `mark-read` route:
`notificationIds.map(id => new Types.ObjectId(id))` throws on the first
malformed id, which the route surfaces as a 500. -/
def parseIds : List (Option Nat) → Option (List Nat)
  | [] => some []
  | none :: _ => none
  | some v :: rest => (parseIds rest).map fun vs => v :: vs

/-- `PUT /notifications/mark-read`: schema check (`min(1)` ids), ObjectId
parsing (throw caught as 500), the ownership `find` whose cardinality must
match the request, then `markAsRead`; responds
`"<n> notifications marked as read"` with `n` the number of requested ids. -/
def markReadHandler (u : Nat) (rawIds : List (Option Nat)) (db : DB) :
    Response × DB :=
  if rawIds.isEmpty then (⟨400, "Validation failed"⟩, db)
  else
    match parseIds rawIds with
    | none => (⟨500, "Failed to mark notifications as read"⟩, db)
    | some vals =>
      let matched := db.notifs.filter fun n =>
        decide (n.id ∈ vals) && n.userId == u
      if matched.length ≠ vals.length then
        (⟨403, "Some notifications do not belong to you or do not exist"⟩, db)
      else
        let k := vals.length
        (⟨200, toString k ++ " notifications marked as read"⟩,
          markAsRead vals db)

/-- `PUT /notifications/mark-all-read`:
`Notification.updateMany({ userId, read: false }, { read: true })`, responding
with the `modifiedCount`. -/
def markAllReadHandler (u : Nat) (db : DB) : Response × DB :=
  let modified := (db.notifs.filter fun n => n.userId == u && !n.read).length
  let db2 : DB := { db with notifs := db.notifs.map fun n =>
      if n.userId == u && !n.read then { n with read := true } else n }
  (⟨200, toString modified ++ " notifications marked as read"⟩, db2)

/-- `Notification.findByIdAndDelete(id)` (ids are unique in the store, so
dropping every document with this id deletes the one matching document). -/
def deleteById (nid : Nat) (db : DB) : DB :=
  { db with notifs := db.notifs.filter fun n => n.id != nid }

/-- `DELETE /notifications/:id`: ObjectId validity check, ownership-scoped
`findOne({ _id, userId })` answered 404 when absent, then
`findByIdAndDelete`. -/
def deleteHandler (u : Nat) (rawId : Option Nat) (db : DB) : Response × DB :=
  match rawId with
  | none => (⟨400, "Invalid notification ID"⟩, db)
  | some v =>
    match db.notifs.find? (fun n => n.id == v && n.userId == u) with
    | none => (⟨404, "Notification not found or does not belong to you"⟩, db)
    | some _ => (⟨200, "Notification deleted successfully"⟩, deleteById v db)

/-- A trip document as the notification builders read it (`models/Trip.ts`
fields `organizerId` (populated), `title`, `participants`). -/
structure Trip where
  id : Nat
  organizerId : Nat
  title : String
  participants : List Nat
deriving DecidableEq, Repr

/-- The `NotificationData` built inline by `notifyTripJoin` for the trip
organizer. -/
def joinArgs (trip : Trip) (travelerName : String) (travelerId : Nat) :
    CreateArgs :=
  { userId := trip.organizerId, type := .trip_join,
    title := "New Traveler Joined Your Trip",
    message := travelerName ++ " has joined your trip \"" ++ trip.title ++
      "\". You now have " ++ toString trip.participants.length ++
      " participants.",
    data := { tripId := some trip.id, actorId := some travelerId,
              actorName := some travelerName, tripTitle := some trip.title },
    sendEmail := true }

/-- The `NotificationData` built inline by `notifyTripLeave` for the trip
organizer. -/
def leaveArgs (trip : Trip) (travelerName : String) (travelerId : Nat) :
    CreateArgs :=
  { userId := trip.organizerId, type := .trip_leave,
    title := "Traveler Left Your Trip",
    message := travelerName ++ " has left your trip \"" ++ trip.title ++
      "\". You now have " ++ toString trip.participants.length ++
      " participants.",
    data := { tripId := some trip.id, actorId := some travelerId,
              actorName := some travelerName, tripTitle := some trip.title },
    sendEmail := true }

/-- `NotificationService.notifyTripJoin`: look the trip up (silently return
when missing), notify the organizer with `sendEmail: true`; the surrounding
`try/catch` logs and swallows every failure. -/
def notifyTripJoin (env : Env) (trips : List Trip) (tripId : Nat)
    (travelerName : String) (travelerId : Nat) (db : DB) :
    Except Err (Unit × DB) :=
  match trips.find? (fun t => t.id == tripId) with
  | none => .ok ((), db)
  | some trip =>
    match createNotification env (joinArgs trip travelerName travelerId) db with
    | .ok (_, db2) => .ok ((), db2)
    | .error _ => .ok ((), db)

/-- `NotificationService.notifyTripLeave`: same shape as `notifyTripJoin` with
kind `trip_leave`. -/
def notifyTripLeave (env : Env) (trips : List Trip) (tripId : Nat)
    (travelerName : String) (travelerId : Nat) (db : DB) :
    Except Err (Unit × DB) :=
  match trips.find? (fun t => t.id == tripId) with
  | none => .ok ((), db)
  | some trip =>
    match createNotification env (leaveArgs trip travelerName travelerId) db with
    | .ok (_, db2) => .ok ((), db2)
    | .error _ => .ok ((), db)

/-- The per-participant `NotificationData` built by `notifyTripDeleted`. -/
def delArgs (tripId : Nat) (tripTitle organizerName : String) (p : Nat) :
    CreateArgs :=
  { userId := p, type := .trip_delete, title := "Trip Cancelled",
    message := "The trip \"" ++ tripTitle ++
      "\" has been cancelled by the organizer " ++ organizerName ++
      ". We apologize for any inconvenience.",
    data := { tripId := some tripId, tripTitle := some tripTitle,
              actorName := some organizerName },
    sendEmail := true }

/-- The per-participant `NotificationData` built by `notifyTripUpdate`
(`sendEmail: false`, `changes` carried in `data`). -/
def updArgs (tripId : Nat) (tripTitle organizerName : String)
    (changes : List String) (p : Nat) : CreateArgs :=
  { userId := p, type := .trip_update, title := "Trip Updated",
    message := "The trip \"" ++ tripTitle ++ "\" has been updated by " ++
      organizerName ++ ". Changes: " ++ String.intercalate (", ") changes,
    data := { tripId := some tripId, tripTitle := some tripTitle,
              actorName := some organizerName, changes := some changes },
    sendEmail := false }

/-- One `createNotification` of a `Promise.all` fan-out: on success the store
advances; a rejection leaves the store as it was and records that the
`Promise.all` will reject. -/
def fanStep (env : Env) (mk : Nat → CreateArgs) (acc : DB × Bool) (p : Nat) :
    DB × Bool :=
  match createNotification env (mk p) acc.1 with
  | .ok (_, db2) => (db2, acc.2)
  | .error _ => (acc.1, true)

/-- `NotificationService.notifyTripDeleted`: one `createNotification` per
participant under `Promise.all` — every create runs to completion, and the
surrounding `try/catch` logs a rejection without undoing the successful
creates, so both branches resolve with the post-fan-out store. -/
def notifyTripDeleted (env : Env) (tripId : Nat) (tripTitle : String)
    (participantIds : List Nat) (organizerName : String) (db : DB) :
    Except Err (Unit × DB) :=
  let r := participantIds.foldl
    (fanStep env (delArgs tripId tripTitle organizerName)) (db, false)
  if r.2 then .ok ((), r.1) else .ok ((), r.1)

/-- `NotificationService.notifyTripUpdate`: same fan-out shape as
`notifyTripDeleted` with kind `trip_update` and `sendEmail: false`. -/
def notifyTripUpdate (env : Env) (tripId : Nat) (tripTitle : String)
    (participantIds : List Nat) (organizerName : String)
    (changes : List String) (db : DB) : Except Err (Unit × DB) :=
  let r := participantIds.foldl
    (fanStep env (updArgs tripId tripTitle organizerName changes)) (db, false)
  if r.2 then .ok ((), r.1) else .ok ((), r.1)

/-! ### Concrete fixtures used by witnesses and counterexamples -/

/-- A stored notification for recipient 1 with id `i` and read flag `r`. -/
def mkN (i : Nat) (r : Bool) : Notification :=
  { id := i, userId := 1, type := .system, title := "t", message := "m",
    data := {}, read := r, emailSent := false, createdAt := i }

/-- Scenario C store: recipient 1 holds five unread (ids 1-5) and three read
(ids 6-8) notifications. -/
def dbC4 : DB :=
  { notifs := [mkN 1 false, mkN 2 false, mkN 3 false, mkN 4 false, mkN 5 false,
               mkN 6 true, mkN 7 true, mkN 8 true], nextId := 9 }

/-- Scenario B store: recipient 1 holds forty-five notifications. -/
def db45 : DB :=
  { notifs := (List.range 45).map fun i => mkN i false, nextId := 45 }

/-- A store holding one notification (id 5) owned by recipient 2: id 5 exists
but is foreign to recipient 1, while id 99 does not exist at all. -/
def dbC2 : DB :=
  { notifs := [{ id := 5, userId := 2, type := .system, title := "t",
                 message := "m", data := {}, read := false, emailSent := false,
                 createdAt := 5 }], nextId := 6 }

/-- The empty store. -/
def db0 : DB := { notifs := [], nextId := 0 }

/-- Store for exercising the mark-read endpoint: one unread notification
(id 1) owned by recipient 1. -/
def dbW9 : DB := { notifs := [mkN 1 false], nextId := 2 }

/-- Store with unread notifications for two distinct recipients. -/
def dbC6 : DB :=
  { notifs := [mkN 1 false,
               { id := 2, userId := 2, type := .system, title := "t",
                 message := "m", data := {}, read := false, emailSent := false,
                 createdAt := 2 }], nextId := 3 }

/-- Environment where every `Notification.create` is rejected by the store. -/
def envFailC8 : Env :=
  { emailTransporter := false, users := fun _ => none,
    smtpFails := fun _ => false, insertFails := fun _ => true }

/-- Environment with no mail transporter configured and a healthy store. -/
def envMailOff : Env :=
  { emailTransporter := false, users := fun _ => none,
    smtpFails := fun _ => false, insertFails := fun _ => false }

/-- Environment with a configured transporter whose every send fails, over a
healthy store: email dispatch failures with successful inserts. -/
def envSmtpFail : Env :=
  { emailTransporter := true, users := fun _ => some ("a@b.c"),
    smtpFails := fun _ => true, insertFails := fun _ => false }

/-- Create-call arguments used by witnesses: recipient 7, email requested. -/
def argsC3 : CreateArgs :=
  { userId := 7, type := .system, title := "Test Notification",
    message := "m", sendEmail := true }

/-! ### Helper lemmas -/

/-- Pointwise relations transfer to `Forall₂` between a list and its map. -/
theorem forall2_map_self {α : Type} (R : α → α → Prop) (f : α → α)
    (h : ∀ a, R a (f a)) (l : List α) : List.Forall₂ R l (l.map f) := by
  induction l with
  | nil => exact List.Forall₂.nil
  | cons a t ih => exact List.Forall₂.cons (h a) ih

/-- Filtering a mapped list is mapping the filter of the composed
predicate. -/
theorem filter_map_eq {α β : Type} (f : α → β) (p : β → Bool) (l : List α) :
    (l.map f).filter p = (l.filter fun a => p (f a)).map f := by
  induction l with
  | nil => rfl
  | cons a t ih => cases h : p (f a) <;> simp [List.filter_cons, h, ih]

/-- A rejected store insert fails `createNotification` with the store
untouched. -/
theorem createNotification_of_fails (env : Env) (args : CreateArgs) (db : DB)
    (h : env.insertFails args.userId = true) :
    createNotification env args db = .error .storeFailure := by
  simp [createNotification, h]

/-- Marking the email mirror flag changes no recipient, kind or context. -/
theorem updateEmailSent_proj (nid : Nat) (db : DB) :
    (updateEmailSent nid db).notifs.map notifProj = db.notifs.map notifProj := by
  simp only [updateEmailSent, List.map_map]
  apply List.map_congr_left
  intro a _
  by_cases h : a.id = nid <;> simp [notifProj, h]

/-- The email step never changes recipient, kind or context of any stored
notification. -/
theorem sendEmailNotification_proj (env : Env) (n : Notification) (db : DB) :
    (sendEmailNotification env n db).notifs.map notifProj =
      db.notifs.map notifProj := by
  unfold sendEmailNotification
  cases env.users n.userId with
  | none => rfl
  | some a =>
    cases h : env.smtpFails n.userId <;> simp [h, updateEmailSent_proj]

/-- A successful `createNotification` appends exactly one record carrying the
requested recipient, kind and context, whatever the email outcome. -/
theorem createNotification_ok (env : Env) (args : CreateArgs) (db : DB)
    (h : env.insertFails args.userId = false) :
    ∃ db2, createNotification env args db = .ok ((insertNotif args db).1, db2) ∧
      db2.notifs.map notifProj =
        db.notifs.map notifProj ++ [(args.userId, args.type, args.data)] := by
  have hins : (insertNotif args db).2.notifs.map notifProj =
      db.notifs.map notifProj ++ [(args.userId, args.type, args.data)] := by
    simp [insertNotif, notifProj]
  cases hse : args.sendEmail && env.emailTransporter with
  | false =>
    refine ⟨(insertNotif args db).2, ?_, hins⟩
    simp [createNotification, h, hse]
  | true =>
    refine ⟨sendEmailNotification env (insertNotif args db).1
      (insertNotif args db).2, ?_, ?_⟩
    · simp [createNotification, h, hse]
    · rw [sendEmailNotification_proj]
      exact hins

/-- Effect of a `Promise.all` fan-out on the store, projected to recipient,
kind and context: one record per participant whose insert succeeded, in
participant order, independent of any email or sibling failure. -/
theorem fanFold_proj (env : Env) (mk : Nat → CreateArgs)
    (hmk : ∀ p, (mk p).userId = p) (ps : List Nat) :
    ∀ (db : DB) (b : Bool),
      ((ps.foldl (fanStep env mk) (db, b)).1).notifs.map notifProj =
        db.notifs.map notifProj ++
          ((ps.filter fun p => !env.insertFails p).map
            fun p => (p, (mk p).type, (mk p).data)) := by
  induction ps with
  | nil => intro db b; simp
  | cons p t ih =>
    intro db b
    simp only [List.foldl_cons, List.filter_cons]
    cases hf : env.insertFails p with
    | true =>
      have hstep : fanStep env mk (db, b) p = (db, true) := by
        simp [fanStep,
          createNotification_of_fails env (mk p) db (by rw [hmk]; exact hf)]
      rw [hstep, ih]
      simp [hf]
    | false =>
      obtain ⟨db2, heq, hproj⟩ :=
        createNotification_ok env (mk p) db (by rw [hmk]; exact hf)
      have hstep : fanStep env mk (db, b) p = (db2, b) := by
        simp [fanStep, heq]
      rw [hstep, ih, hproj]
      simp [hf, hmk]

/-- `notifyTripDeleted` always resolves, with the store left exactly as the
fan-out fold leaves it (the `catch` only logs). -/
theorem notifyTripDeleted_resolves (env : Env) (tripId : Nat)
    (tripTitle : String) (ps : List Nat) (org : String) (db : DB) :
    notifyTripDeleted env tripId tripTitle ps org db =
      .ok ((), (ps.foldl (fanStep env (delArgs tripId tripTitle org))
        (db, false)).1) := by
  unfold notifyTripDeleted
  exact ite_self _

/-- `notifyTripUpdate` always resolves, with the store left exactly as the
fan-out fold leaves it. -/
theorem notifyTripUpdate_resolves (env : Env) (tripId : Nat)
    (tripTitle : String) (ps : List Nat) (org : String)
    (changes : List String) (db : DB) :
    notifyTripUpdate env tripId tripTitle ps org changes db =
      .ok ((), (ps.foldl (fanStep env (updArgs tripId tripTitle org changes))
        (db, false)).1) := by
  unfold notifyTripUpdate
  exact ite_self _

/-- The freshly inserted record is stored. -/
theorem insertNotif_mem (args : CreateArgs) (db : DB) :
    (insertNotif args db).1 ∈ (insertNotif args db).2.notifs := by
  simp [insertNotif]

/-- The email step preserves every stored record up to its mirror flag: id,
recipient and read state survive unchanged. -/
theorem sendEmail_mem (env : Env) (n : Notification) (db : DB)
    (m : Notification) (hm : m ∈ db.notifs) :
    ∃ m2, m2 ∈ (sendEmailNotification env n db).notifs ∧ m2.id = m.id ∧
      m2.userId = m.userId ∧ m2.read = m.read := by
  unfold sendEmailNotification
  cases env.users n.userId with
  | none => exact ⟨m, hm, rfl, rfl, rfl⟩
  | some a =>
    cases hs : env.smtpFails n.userId with
    | true => simp only [hs, if_true]; exact ⟨m, hm, rfl, rfl, rfl⟩
    | false =>
      simp only [hs, Bool.false_eq_true, if_false]
      unfold updateEmailSent
      by_cases h : m.id = n.id
      · refine ⟨{ m with emailSent := true }, ?_, rfl, rfl, rfl⟩
        have hx := List.mem_map_of_mem
          (fun x => if x.id = n.id then { x with emailSent := true } else x) hm
        simpa [h] using hx
      · refine ⟨m, ?_, rfl, rfl, rfl⟩
        have hx := List.mem_map_of_mem
          (fun x => if x.id = n.id then { x with emailSent := true } else x) hm
        simpa [h] using hx

/-! ### Claim C1 -/

/-- C1: for every participant list of size P handed to `notifyTripDeleted`,
exactly P notification records are created — one per participant, in order —
each with kind `trip_delete` and each carrying the deleted trip's id and
title in its `data`, whatever the outcome of any email dispatch (the
environment's transporter, user lookup and SMTP oracles are universally
quantified, so the conclusion holds in particular when some or all email
sends fail). -/
theorem C1_fanout_creates_one_per_participant (env : Env) (tripId : Nat)
    (tripTitle : String) (participantIds : List Nat) (organizerName : String)
    (db : DB) (hins : ∀ p ∈ participantIds, env.insertFails p = false) :
    ∃ db2,
      notifyTripDeleted env tripId tripTitle participantIds organizerName db =
        .ok ((), db2) ∧
      db2.notifs.length = db.notifs.length + participantIds.length ∧
      db2.notifs.map notifProj = db.notifs.map notifProj ++
        participantIds.map (fun p => (p, NotificationType.trip_delete,
          ({ tripId := some tripId, tripTitle := some tripTitle,
             actorName := some organizerName } : NData))) := by
  have hproj := fanFold_proj env (delArgs tripId tripTitle organizerName)
    (fun p => rfl) participantIds db false
  have hfilt :
      participantIds.filter (fun p => !env.insertFails p) = participantIds :=
    List.filter_eq_self.mpr (fun p hp => by rw [hins p hp]; rfl)
  rw [hfilt] at hproj
  refine ⟨_, notifyTripDeleted_resolves env tripId tripTitle participantIds
    organizerName db, ?_, hproj⟩
  have hlen := congrArg List.length hproj
  simpa using hlen

/-- Witness for C1: three participants, a configured transporter whose every
send fails — still exactly three `trip_delete` records carrying the trip id
and title. -/
theorem C1_witness :
    (∀ p ∈ [10, 11, 12], envSmtpFail.insertFails p = false) ∧
    (∃ db2,
      notifyTripDeleted envSmtpFail 1 ("T") [10, 11, 12] ("Org") db0 =
        .ok ((), db2) ∧
      db2.notifs.length = db0.notifs.length + [10, 11, 12].length ∧
      db2.notifs.map notifProj = db0.notifs.map notifProj ++
        [10, 11, 12].map (fun p => (p, NotificationType.trip_delete,
          ({ tripId := some 1, tripTitle := some ("T"),
             actorName := some ("Org") } : NData)))) :=
  ⟨by decide, C1_fanout_creates_one_per_participant envSmtpFail 1 ("T")
    [10, 11, 12] ("Org") db0 (by decide)⟩

/-! ### Claim C8 -/

/-- C8 counterexample: with a store that rejects every insert, each
per-recipient create genuinely fails (first conjunct), yet both fan-out
coordinators resolve successfully with a bare `((), store)` — their resolved
value is `undefined` in the source and carries no `{succeeded, failed}`
structure, so no per-recipient failure is captured in any returned result,
contrary to the claim. -/
theorem C8_counterexample :
    createNotification envFailC8 (delArgs 1 ("T") ("Org") 10) db0 =
      .error .storeFailure ∧
    notifyTripDeleted envFailC8 1 ("T") [10, 11] ("Org") db0 = .ok ((), db0) ∧
    notifyTripUpdate envFailC8 1 ("T") [10, 11] ("Org") [("dates")] db0 =
      .ok ((), db0) :=
  ⟨rfl, rfl, rfl⟩

/-- C8 amended: the fan-out coordinators (`notifyTripDeleted`,
`notifyTripUpdate`) never reject — every per-recipient failure is caught and
only logged — and failures are isolated: the store afterwards holds exactly
one new record for every recipient whose insert succeeded, in order, so no
recipient's failure aborts or rolls back a sibling.  No `{succeeded, failed}`
result is returned; the resolved value is void. -/
theorem C8_fanout_never_rejects (env : Env) (tripId : Nat) (tripTitle : String)
    (ps : List Nat) (org : String) (changes : List String) (db : DB) :
    (∃ db2,
      notifyTripDeleted env tripId tripTitle ps org db = .ok ((), db2) ∧
      db2.notifs.map notifProj = db.notifs.map notifProj ++
        ((ps.filter fun p => !env.insertFails p).map
          fun p => (p, NotificationType.trip_delete,
            (delArgs tripId tripTitle org p).data))) ∧
    (∃ db2,
      notifyTripUpdate env tripId tripTitle ps org changes db = .ok ((), db2) ∧
      db2.notifs.map notifProj = db.notifs.map notifProj ++
        ((ps.filter fun p => !env.insertFails p).map
          fun p => (p, NotificationType.trip_update,
            (updArgs tripId tripTitle org changes p).data))) :=
  ⟨⟨_, notifyTripDeleted_resolves env tripId tripTitle ps org db,
      fanFold_proj env (delArgs tripId tripTitle org) (fun _ => rfl) ps db
        false⟩,
    ⟨_, notifyTripUpdate_resolves env tripId tripTitle ps org changes db,
      fanFold_proj env (updArgs tripId tripTitle org changes) (fun _ => rfl)
        ps db false⟩⟩

/-! ### Claim C10 -/

/-- C10: none of the four event builders ever rejects — every internal
failure (missing trip, store insert rejection, email failure) is caught and
logged — and when the referenced trip does not exist, `notifyTripJoin` and
`notifyTripLeave` return with the store untouched, creating no
notification. -/
theorem C10_builders_never_throw (env : Env) (trips : List Trip)
    (tripId travelerId : Nat) (travelerName : String) (dtid : Nat)
    (dtitle : String) (ps : List Nat) (org : String) (changes : List String)
    (db : DB) :
    (∃ r, notifyTripJoin env trips tripId travelerName travelerId db =
      .ok r) ∧
    (∃ r, notifyTripLeave env trips tripId travelerName travelerId db =
      .ok r) ∧
    (∃ r, notifyTripDeleted env dtid dtitle ps org db = .ok r) ∧
    (∃ r, notifyTripUpdate env dtid dtitle ps org changes db = .ok r) ∧
    (trips.find? (fun t => t.id == tripId) = none →
      notifyTripJoin env trips tripId travelerName travelerId db =
        .ok ((), db) ∧
      notifyTripLeave env trips tripId travelerName travelerId db =
        .ok ((), db)) := by
  refine ⟨?_, ?_,
    ⟨_, notifyTripDeleted_resolves env dtid dtitle ps org db⟩,
    ⟨_, notifyTripUpdate_resolves env dtid dtitle ps org changes db⟩, ?_⟩
  · unfold notifyTripJoin
    cases trips.find? (fun t => t.id == tripId) with
    | none => exact ⟨((), db), rfl⟩
    | some trip =>
      dsimp only
      cases createNotification env (joinArgs trip travelerName travelerId)
          db with
      | ok x => exact ⟨((), x.2), rfl⟩
      | error e => exact ⟨((), db), rfl⟩
  · unfold notifyTripLeave
    cases trips.find? (fun t => t.id == tripId) with
    | none => exact ⟨((), db), rfl⟩
    | some trip =>
      dsimp only
      cases createNotification env (leaveArgs trip travelerName
          travelerId) db with
      | ok x => exact ⟨((), x.2), rfl⟩
      | error e => exact ⟨((), db), rfl⟩
  · intro hmiss
    unfold notifyTripJoin notifyTripLeave
    rw [hmiss]
    exact ⟨rfl, rfl⟩

/-- Witness for C10: with no trips stored, the lookup misses and both
single-recipient builders resolve with the store untouched. -/
theorem C10_witness :
    notifyTripJoin envMailOff [] 3 ("Ann") 4 db0 = .ok ((), db0) ∧
    notifyTripLeave envMailOff [] 3 ("Ann") 4 db0 = .ok ((), db0) :=
  (C10_builders_never_throw envMailOff [] 3 4 ("Ann") 1 ("T") [10] ("Org")
    [("x")] db0).2.2.2.2 rfl

/-! ### Claim C3 -/

/-- C3: whenever the store insert succeeds, `createNotification` resolves
successfully — whatever the transporter configuration, user lookup and SMTP
outcomes, so an email dispatch failure never propagates — returning the
persisted notification, which starts unread and unmirrored and is present in
the store; in particular, with no mail transporter configured (and any
`sendEmail` request), the stored record keeps `emailSent = false` and no
error is raised. -/
theorem C3_email_failure_not_propagated (env : Env) (args : CreateArgs)
    (db : DB) (h : env.insertFails args.userId = false) :
    ∃ n db2, createNotification env args db = .ok (n, db2) ∧
      n.userId = args.userId ∧ n.read = false ∧ n.emailSent = false ∧
      ∃ m, m ∈ db2.notifs ∧ m.id = n.id ∧ m.userId = args.userId ∧
        m.read = false ∧
        (env.emailTransporter = false → m.emailSent = false) := by
  cases hse : args.sendEmail && env.emailTransporter with
  | false =>
    refine ⟨(insertNotif args db).1, (insertNotif args db).2, ?_, rfl, rfl,
      rfl, (insertNotif args db).1, insertNotif_mem args db, rfl, rfl, rfl,
      fun _ => rfl⟩
    simp [createNotification, h, hse]
  | true =>
    have htr : env.emailTransporter = true := by
      revert hse
      cases env.emailTransporter <;> simp
    obtain ⟨m2, hmem, hid, huid, hread⟩ := sendEmail_mem env
      (insertNotif args db).1 (insertNotif args db).2 (insertNotif args db).1
      (insertNotif_mem args db)
    refine ⟨(insertNotif args db).1,
      sendEmailNotification env (insertNotif args db).1 (insertNotif args db).2,
      ?_, rfl, rfl, rfl, m2, hmem, hid, ?_, ?_, ?_⟩
    · simp [createNotification, h, hse]
    · exact huid.trans rfl
    · exact hread.trans rfl
    · intro hfalse
      rw [htr] at hfalse
      exact Bool.noConfusion hfalse

/-- Witness for C3: recipient 7 requests an email mirror while no transporter
is configured; the create still resolves with a persisted, unmirrored
record. -/
theorem C3_witness :
    envMailOff.insertFails argsC3.userId = false ∧
    (∃ n db2, createNotification envMailOff argsC3 db0 = .ok (n, db2) ∧
      n.userId = argsC3.userId ∧ n.read = false ∧ n.emailSent = false ∧
      ∃ m, m ∈ db2.notifs ∧ m.id = n.id ∧ m.userId = argsC3.userId ∧
        m.read = false ∧
        (envMailOff.emailTransporter = false → m.emailSent = false)) :=
  ⟨rfl, C3_email_failure_not_propagated envMailOff argsC3 db0 rfl⟩

/-! ### Claim C2 -/

/-- When the caller owns no stored notification with the requested id, the
mark-read endpoint answers with the fixed 403 response and an unchanged
store. -/
theorem markReadHandler_nomatch (u v : Nat) (db : DB)
    (h : ∀ n ∈ db.notifs, ¬(n.id = v ∧ n.userId = u)) :
    markReadHandler u [some v] db =
      (⟨403, "Some notifications do not belong to you or do not exist"⟩,
        db) := by
  have hfilt :
      (db.notifs.filter fun n => decide (n.id ∈ [v]) && n.userId == u) =
        [] := by
    apply List.filter_eq_nil_iff.mpr
    intro n hn
    simp only [Bool.and_eq_true, decide_eq_true_eq, List.mem_singleton,
      beq_iff_eq, not_and]
    exact fun h1 h2 => h n hn ⟨h1, h2⟩
  have hred : markReadHandler u [some v] db =
      (if ((db.notifs.filter fun n =>
            decide (n.id ∈ [v]) && n.userId == u)).length ≠ [v].length
        then (⟨403,
          "Some notifications do not belong to you or do not exist"⟩, db)
        else (⟨200, toString ([v].length) ++ " notifications marked as read"⟩,
          markAsRead [v] db)) := rfl
  rw [hred, hfilt]
  norm_num

/-- When the caller owns no stored notification with the requested id, the
delete endpoint answers with the fixed 404 response and an unchanged
store. -/
theorem deleteHandler_nomatch (u v : Nat) (db : DB)
    (h : ∀ n ∈ db.notifs, ¬(n.id = v ∧ n.userId = u)) :
    deleteHandler u (some v) db =
      (⟨404, "Notification not found or does not belong to you"⟩, db) := by
  have hfind : db.notifs.find? (fun n => n.id == v && n.userId == u) =
      none := by
    apply List.find?_eq_none.mpr
    intro n hn
    simp only [Bool.and_eq_true, beq_iff_eq, not_and]
    exact fun h1 h2 => h n hn ⟨h1, h2⟩
  simp [deleteHandler, hfind]

/-- C2: for the mark-read and delete endpoints, a request for an id the
caller does not own is answered identically whether the id belongs to a
different recipient or does not exist at all — any two such runs (different
stores, callers and ids) produce equal responses and leave both stores
unchanged.  The fixed response is the 404 NotFound body for delete and the
fixed 403 body for mark-read; in both endpoints nothing distinguishes
foreign from absent, so existence cannot be probed across accounts. -/
theorem C2_foreign_id_indistinguishable (dbA dbB : DB) (uA uB vA vB : Nat)
    (hA : ∀ n ∈ dbA.notifs, ¬(n.id = vA ∧ n.userId = uA))
    (hB : ∀ n ∈ dbB.notifs, ¬(n.id = vB ∧ n.userId = uB)) :
    ((markReadHandler uA [some vA] dbA).1 =
        (markReadHandler uB [some vB] dbB).1 ∧
      (markReadHandler uA [some vA] dbA).2 = dbA ∧
      (markReadHandler uB [some vB] dbB).2 = dbB) ∧
    ((deleteHandler uA (some vA) dbA).1 = (deleteHandler uB (some vB) dbB).1 ∧
      (deleteHandler uA (some vA) dbA).1.status = 404 ∧
      (deleteHandler uA (some vA) dbA).2 = dbA ∧
      (deleteHandler uB (some vB) dbB).2 = dbB) := by
  rw [markReadHandler_nomatch uA vA dbA hA, markReadHandler_nomatch uB vB dbB
    hB, deleteHandler_nomatch uA vA dbA hA, deleteHandler_nomatch uB vB dbB hB]
  exact ⟨⟨rfl, rfl, rfl⟩, rfl, rfl, rfl, rfl⟩

/-- Witness for C2: run A asks about id 5, which exists in `dbC2` but belongs
to recipient 2, not the caller (recipient 1); run B asks about id 99, which
does not exist at all.  Responses coincide and both stores are unchanged. -/
theorem C2_witness :
    (∀ n ∈ dbC2.notifs, ¬(n.id = 5 ∧ n.userId = 1)) ∧
    (∀ n ∈ dbC2.notifs, ¬(n.id = 99 ∧ n.userId = 1)) ∧
    (((markReadHandler 1 [some 5] dbC2).1 =
        (markReadHandler 1 [some 99] dbC2).1 ∧
      (markReadHandler 1 [some 5] dbC2).2 = dbC2 ∧
      (markReadHandler 1 [some 99] dbC2).2 = dbC2) ∧
    ((deleteHandler 1 (some 5) dbC2).1 = (deleteHandler 1 (some 99) dbC2).1 ∧
      (deleteHandler 1 (some 5) dbC2).1.status = 404 ∧
      (deleteHandler 1 (some 5) dbC2).2 = dbC2 ∧
      (deleteHandler 1 (some 99) dbC2).2 = dbC2)) :=
  ⟨by decide, by decide,
    C2_foreign_id_indistinguishable dbC2 dbC2 1 1 5 99 (by decide)
      (by decide)⟩

/-! ### Claim C4 -/

/-- C4 counterexample (Scenario C): recipient 1 has five unread (ids 1-5) and
three read (ids 6-8) notifications and marks ids {1, 2, 6} — two unread and
one already read.  The endpoint replies "3 notifications marked as read",
counting the already-read id in its reported count instead of the claimed
"2 updated"; the unread count afterwards is 3, as the claim's second half
says. -/
theorem C4_counterexample :
    (markReadHandler 1 [some 1, some 2, some 6] dbC4).1 =
      ⟨200, "3 notifications marked as read"⟩ ∧
    getUnreadCount 1 (markReadHandler 1 [some 1, some 2, some 6] dbC4).2 =
      3 := by
  decide

/-- Marking a set of ids read leaves unread exactly the previously-unread
records outside that set. -/
theorem unread_markAsRead (u : Nat) (vals : List Nat) (db : DB) :
    getUnreadCount u (markAsRead vals db) =
      (db.notifs.filter fun n =>
        n.userId == u && !n.read && !(decide (n.id ∈ vals))).length := by
  unfold getUnreadCount markAsRead
  rw [filter_map_eq, List.length_map]
  congr 1
  apply List.filter_congr
  intro n hn
  by_cases hv : n.id ∈ vals
  · simp [hv]
  · simp [hv]

/-- C4 amended: on success the mark-read endpoint reports the number of
requested ids — already-read ids included — not the number of records whose
read flag changed; the store afterwards is `markAsRead` of the requested id
set, and the recipient's unread count afterwards counts exactly the
previously-unread records outside the requested set (so already-read ids are
a no-op for the unread count, as the claim's second half states). -/
theorem C4_reported_count_and_unread (u : Nat) (rawIds : List (Option Nat))
    (vals : List Nat) (db : DB) (hp : parseIds rawIds = some vals)
    (hs : (markReadHandler u rawIds db).1.status = 200) :
    (markReadHandler u rawIds db).1.message =
      toString vals.length ++ " notifications marked as read" ∧
    (markReadHandler u rawIds db).2 = markAsRead vals db ∧
    getUnreadCount u (markReadHandler u rawIds db).2 =
      (db.notifs.filter fun n =>
        n.userId == u && !n.read && !(decide (n.id ∈ vals))).length := by
  by_cases he : rawIds.isEmpty
  · exfalso
    unfold markReadHandler at hs
    rw [if_pos he] at hs
    simp at hs
  · unfold markReadHandler at hs ⊢
    rw [if_neg he] at hs ⊢
    rw [hp] at hs ⊢
    dsimp only at hs ⊢
    by_cases hm : (db.notifs.filter fun n =>
        decide (n.id ∈ vals) && n.userId == u).length ≠ vals.length
    · rw [if_pos hm] at hs
      simp at hs
    · rw [if_neg hm] at hs ⊢
      exact ⟨rfl, rfl, unread_markAsRead u vals db⟩

/-- Witness for C4: the Scenario C store, where the endpoint succeeds on
{1, 2, 6} and afterwards three notifications remain unread. -/
theorem C4_witness :
    parseIds [some 1, some 2, some 6] = some [1, 2, 6] ∧
    (markReadHandler 1 [some 1, some 2, some 6] dbC4).1.status = 200 ∧
    ((markReadHandler 1 [some 1, some 2, some 6] dbC4).1.message =
      toString ([1, 2, 6] : List Nat).length ++
        " notifications marked as read" ∧
    (markReadHandler 1 [some 1, some 2, some 6] dbC4).2 =
      markAsRead [1, 2, 6] dbC4 ∧
    getUnreadCount 1 (markReadHandler 1 [some 1, some 2, some 6] dbC4).2 =
      (dbC4.notifs.filter fun n =>
        n.userId == 1 && !n.read && !(decide (n.id ∈ [1, 2, 6]))).length) :=
  ⟨by decide, by decide,
    C4_reported_count_and_unread 1 [some 1, some 2, some 6] [1, 2, 6] dbC4
      (by decide) (by decide)⟩

/-! ### Claim C5 -/

/-- C5 counterexample (Scenario B): with forty-five stored notifications for
recipient 1, page 2 of size 20 returns 20 items with `total = 45`, and the
`pagination` object is exactly `{page, limit, total, pages}` — it contains no
`hasNextPage` and no `hasPrevPage` key, contrary to the claim that `list`
returns those computed fields; page 3 returns the remaining 5 items. -/
theorem C5_counterexample :
    (getUserNotifications 1 2 20 db45).pagination =
      [("page", 2), ("limit", 20), ("total", 45), ("pages", 3)] ∧
    (getUserNotifications 1 2 20 db45).pagination.lookup ("hasNextPage") =
      none ∧
    (getUserNotifications 1 2 20 db45).pagination.lookup ("hasPrevPage") =
      none ∧
    (getUserNotifications 1 2 20 db45).notifications.length = 20 ∧
    (getUserNotifications 1 3 20 db45).notifications.length = 5 :=
  ⟨rfl, rfl, rfl, rfl, rfl⟩

/-- The strict bound by a ceiling quotient, as used to relate the claim's
`hasNextPage` formula to the `pages` field the code returns. -/
theorem lt_ceil_div_iff (a t l : Nat) (hl : 0 < l) :
    a * l < t ↔ a < (t + l - 1) / l := by
  have key : ∀ m : Nat, m < t ↔ m + l ≤ t + l - 1 := by
    intro m
    omega
  constructor
  · intro h
    have h1 : (a + 1) * l ≤ t + l - 1 := by
      rw [Nat.succ_mul]
      exact (key (a * l)).mp h
    exact Nat.lt_iff_add_one_le.mpr ((Nat.le_div_iff_mul_le hl).mpr h1)
  · intro h
    have h1 : (a + 1) * l ≤ t + l - 1 :=
      (Nat.le_div_iff_mul_le hl).mp (Nat.lt_iff_add_one_le.mp h)
    rw [Nat.succ_mul] at h1
    exact (key (a * l)).mpr h1

/-- C5 amended: `getUserNotifications` returns pagination
`{page, limit, total, pages = ceil(total/limit)}` and no
`hasNextPage`/`hasPrevPage` fields; the page holds
`min(pageSize, total - (page-1)*pageSize)` items, and the claim's
`hasNextPage = page*pageSize < totalCount` is derivable from the returned
fields as `page < pages` (the two are equivalent), while `hasPrevPage`
is derivable as `page > 1`.  The Scenario B numbers (20 items, total 45,
then 5 items) follow. -/
theorem C5_pagination_fields (u page limit : Nat) (db : DB)
    (hl : 0 < limit) :
    (getUserNotifications u page limit db).pagination =
      [("page", page), ("limit", limit),
        ("total", (db.notifs.filter fun n => n.userId == u).length),
        ("pages",
          ((db.notifs.filter fun n => n.userId == u).length + limit - 1) /
            limit)] ∧
    (getUserNotifications u page limit db).pagination.lookup
      ("hasNextPage") = none ∧
    (getUserNotifications u page limit db).pagination.lookup
      ("hasPrevPage") = none ∧
    (getUserNotifications u page limit db).notifications.length =
      min limit
        ((db.notifs.filter fun n => n.userId == u).length -
          (page - 1) * limit) ∧
    (page * limit < (db.notifs.filter fun n => n.userId == u).length ↔
      page <
        ((db.notifs.filter fun n => n.userId == u).length + limit - 1) /
          limit) := by
  refine ⟨rfl, rfl, rfl, ?_,
    lt_ceil_div_iff page ((db.notifs.filter fun n => n.userId == u).length)
      limit hl⟩
  simp [getUserNotifications, List.length_take, List.length_drop]

/-- Witness for C5: Scenario B's store, page 2 of size 20. -/
theorem C5_witness :
    0 < 20 ∧
    ((getUserNotifications 1 2 20 db45).pagination =
      [("page", 2), ("limit", 20),
        ("total", (db45.notifs.filter fun n => n.userId == 1).length),
        ("pages",
          ((db45.notifs.filter fun n => n.userId == 1).length + 20 - 1) /
            20)] ∧
    (getUserNotifications 1 2 20 db45).pagination.lookup
      ("hasNextPage") = none ∧
    (getUserNotifications 1 2 20 db45).pagination.lookup
      ("hasPrevPage") = none ∧
    (getUserNotifications 1 2 20 db45).notifications.length =
      min 20
        ((db45.notifs.filter fun n => n.userId == 1).length - (2 - 1) * 20) ∧
    (2 * 20 < (db45.notifs.filter fun n => n.userId == 1).length ↔
      2 <
        ((db45.notifs.filter fun n => n.userId == 1).length + 20 - 1) /
          20)) :=
  ⟨by decide, C5_pagination_fields 1 2 20 db45 (by decide)⟩

/-! ### Claim C6 -/

/-- C6: after the mark-all-read endpoint runs for recipient u, u's unread
count is zero, and the unread count of every other recipient u2 is exactly
what it was before the call. -/
theorem C6_mark_all_read_frame (db : DB) (u u2 : Nat) (h : u2 ≠ u) :
    getUnreadCount u (markAllReadHandler u db).2 = 0 ∧
    getUnreadCount u2 (markAllReadHandler u db).2 = getUnreadCount u2 db := by
  constructor
  · unfold getUnreadCount markAllReadHandler
    dsimp only
    rw [filter_map_eq, List.length_map]
    apply List.length_eq_zero.mpr
    apply List.filter_eq_nil_iff.mpr
    intro n hn
    cases hc : (n.userId == u && !n.read) <;> simp [hc]
  · unfold getUnreadCount markAllReadHandler
    dsimp only
    rw [filter_map_eq, List.length_map]
    congr 1
    apply List.filter_congr
    intro n hn
    cases hc : (n.userId == u && !n.read) with
    | false => simp [hc]
    | true =>
      have hand := hc
      simp only [Bool.and_eq_true, beq_iff_eq] at hand
      have huid : (n.userId == u2) = false := by
        simp only [beq_eq_false_iff_ne]
        rw [hand.1]
        exact Ne.symm h
      simp [hc, huid]

/-- Witness for C6: recipient 1 marks all read in a store where recipients 1
and 2 each hold one unread notification. -/
theorem C6_witness :
    (2 : Nat) ≠ 1 ∧
    (getUnreadCount 1 (markAllReadHandler 1 dbC6).2 = 0 ∧
      getUnreadCount 2 (markAllReadHandler 1 dbC6).2 = getUnreadCount 2 dbC6) :=
  ⟨by decide, C6_mark_all_read_frame dbC6 1 2 (by decide)⟩

/-! ### Claim C7 -/

/-- C7: the two booleans are monotonic and independent across the pipeline's
store operations — a freshly inserted record starts with `read = false` and
`emailSent = false`; `markAsRead` and the mark-all-read update can only raise
`read` and leave `emailSent` of every record exactly as it was; the email
mirror update can only raise `emailSent` and leaves `read` exactly as it was
(so neither flag's transition implies the other's); the delete operation
introduces no record, so no operation ever returns either flag to false. -/
theorem C7_flags_monotonic (db : DB) (ids : List Nat) (u nid : Nat)
    (args : CreateArgs) :
    ((insertNotif args db).1.read = false ∧
      (insertNotif args db).1.emailSent = false ∧
      (insertNotif args db).2.notifs =
        db.notifs ++ [(insertNotif args db).1]) ∧
    List.Forall₂ (fun n n2 => n2.id = n.id ∧ n2.userId = n.userId ∧
      n2.emailSent = n.emailSent ∧ (n.read = true → n2.read = true))
      db.notifs (markAsRead ids db).notifs ∧
    List.Forall₂ (fun n n2 => n2.id = n.id ∧ n2.userId = n.userId ∧
      n2.emailSent = n.emailSent ∧ (n.read = true → n2.read = true))
      db.notifs (markAllReadHandler u db).2.notifs ∧
    List.Forall₂ (fun n n2 => n2.id = n.id ∧ n2.userId = n.userId ∧
      n2.read = n.read ∧ (n.emailSent = true → n2.emailSent = true))
      db.notifs (updateEmailSent nid db).notifs ∧
    (∀ n ∈ (deleteById nid db).notifs, n ∈ db.notifs) := by
  refine ⟨⟨rfl, rfl, rfl⟩, ?_, ?_, ?_, ?_⟩
  · apply forall2_map_self
    intro a
    by_cases hv : a.id ∈ ids <;> simp [hv]
  · apply forall2_map_self
    intro a
    cases hc : (a.userId == u && !a.read) <;> simp [hc]
  · apply forall2_map_self
    intro a
    by_cases hv : a.id = nid <;> simp [hv]
  · intro n hn
    exact List.mem_of_mem_filter hn

/-- Witness for C7: the inserted record of a concrete create starts with both
flags false. -/
theorem C7_witness :
    (insertNotif argsC3 db0).1.read = false ∧
    (insertNotif argsC3 db0).1.emailSent = false :=
  ⟨(C7_flags_monotonic db0 [1] 1 2 argsC3).1.1,
    (C7_flags_monotonic db0 [1] 1 2 argsC3).1.2.1⟩

/-! ### Claim C9 -/

/-- A successful parse means every raw id was a well-formed ObjectId whose
value reached the parsed list. -/
theorem parseIds_forall (l : List (Option Nat)) (v : List Nat)
    (hp : parseIds l = some v) : ∀ o ∈ l, ∃ x, o = some x ∧ x ∈ v := by
  induction l generalizing v with
  | nil => intro o ho; cases ho
  | cons a t ih =>
    intro o ho
    cases a with
    | none => simp [parseIds] at hp
    | some x =>
      cases hpt : parseIds t with
      | none => simp [parseIds, hpt] at hp
      | some vs =>
        simp only [parseIds, hpt, Option.map_some', Option.some.injEq] at hp
        subst hp
        rcases List.mem_cons.mp ho with rfl | hmem
        · exact ⟨x, rfl, List.mem_cons_self x vs⟩
        · obtain ⟨y, hy, hyv⟩ := ih vs hpt o hmem
          exact ⟨y, hy, List.mem_cons_of_mem x hyv⟩

/-- The counting core of the ownership check: if the store's ids are unique
and the ownership-scoped `find` matched as many documents as ids were
requested, then every requested id denotes a document owned by the caller. -/
theorem owned_of_count (db : DB) (u : Nat) (vals : List Nat)
    (hnd : (db.notifs.map fun n => n.id).Nodup)
    (hlen : (db.notifs.filter fun n =>
      decide (n.id ∈ vals) && n.userId == u).length = vals.length) :
    ∀ v ∈ vals, ∃ n, n ∈ db.notifs ∧ n.id = v ∧ n.userId = u := by
  intro v hv
  by_contra hno
  push_neg at hno
  set matched := db.notifs.filter fun n =>
    decide (n.id ∈ vals) && n.userId == u with hmdef
  have hsub : List.Sublist matched db.notifs := List.filter_sublist db.notifs
  have hmnd : ((matched.map fun n => n.id)).Nodup :=
    hnd.sublist (hsub.map fun n => n.id)
  have hss : (matched.map fun n => n.id) ⊆ vals.erase v := by
    intro x hx
    rcases List.mem_map.mp hx with ⟨n, hn, rfl⟩
    have hprop := List.mem_filter.mp hn
    have hpred := hprop.2
    simp only [Bool.and_eq_true, decide_eq_true_eq, beq_iff_eq] at hpred
    have hne : n.id ≠ v := by
      intro hh
      exact hno n hprop.1 hh hpred.2
    exact (List.mem_erase_of_ne hne).mpr hpred.1
  have hsp : List.Subperm (matched.map fun n => n.id) (vals.erase v) :=
    hmnd.subperm hss
  have hle : matched.length ≤ (vals.erase v).length := by
    have hl2 := hsp.length_le
    simpa using hl2
  have herase : (vals.erase v).length = vals.length - 1 :=
    List.length_erase_of_mem hv
  have hvpos : 0 < vals.length := List.length_pos_of_mem hv
  omega

/-- C9: the mark-read endpoint is all-or-nothing over its requested id set —
on any non-200 outcome (empty set, malformed id, or an id that is missing or
foreign) the store is completely unchanged, and on the 200 outcome (given the
store invariant that ids are unique) every requested id was a well-formed id
of a document owned by the caller, and every requested document is read
afterwards. -/
theorem C9_mark_read_all_or_nothing (u : Nat) (rawIds : List (Option Nat))
    (db : DB) :
    ((markReadHandler u rawIds db).1.status ≠ 200 →
      (markReadHandler u rawIds db).2 = db) ∧
    ((markReadHandler u rawIds db).1.status = 200 →
      (db.notifs.map fun n => n.id).Nodup →
      (∀ o ∈ rawIds, ∃ v, o = some v ∧
        ∃ n, n ∈ db.notifs ∧ n.id = v ∧ n.userId = u) ∧
      (∀ m ∈ (markReadHandler u rawIds db).2.notifs,
        (some m.id) ∈ rawIds → m.read = true)) := by
  by_cases he : rawIds.isEmpty
  · constructor
    · intro _
      unfold markReadHandler
      rw [if_pos he]
    · intro hs
      exfalso
      unfold markReadHandler at hs
      rw [if_pos he] at hs
      simp at hs
  · cases hp : parseIds rawIds with
    | none =>
      constructor
      · intro _
        unfold markReadHandler
        rw [if_neg he, hp]
      · intro hs
        exfalso
        unfold markReadHandler at hs
        rw [if_neg he, hp] at hs
        simp at hs
    | some vals =>
      by_cases hm : (db.notifs.filter fun n =>
          decide (n.id ∈ vals) && n.userId == u).length ≠ vals.length
      · constructor
        · intro _
          unfold markReadHandler
          rw [if_neg he, hp]
          dsimp only
          rw [if_pos hm]
        · intro hs
          exfalso
          unfold markReadHandler at hs
          rw [if_neg he, hp] at hs
          dsimp only at hs
          rw [if_pos hm] at hs
          simp at hs
      · push_neg at hm
        have hstat : (markReadHandler u rawIds db).1.status = 200 ∧
            (markReadHandler u rawIds db).2 = markAsRead vals db := by
          unfold markReadHandler
          rw [if_neg he, hp]
          dsimp only
          rw [if_neg (fun hh => hh hm)]
          exact ⟨rfl, rfl⟩
        constructor
        · intro hne
          exact absurd hstat.1 hne
        · intro _ hnd
          constructor
          · intro o ho
            obtain ⟨x, rfl, hxv⟩ := parseIds_forall rawIds vals hp o ho
            obtain ⟨n, hn, hid, huid⟩ := owned_of_count db u vals hnd hm x hxv
            exact ⟨x, rfl, n, hn, hid, huid⟩
          · intro m hmem hsome
            rw [hstat.2] at hmem
            rcases List.mem_map.mp hmem with ⟨n, hn, rfl⟩
            by_cases hv : n.id ∈ vals
            · simp [hv]
            · exfalso
              simp only [hv, decide_False, if_false] at hsome
              obtain ⟨x, hx, hxv⟩ :=
                parseIds_forall rawIds vals hp (some n.id) hsome
              have hx2 : n.id ∈ vals := by
                rw [show n.id = x from Option.some.inj hx]
                exact hxv
              exact hv hx2

/-- Witness for C9: on the one-record store, the request for the foreign id
99 changes nothing, while the request for the owned id 1 certifies ownership
of every requested id and marks it read. -/
theorem C9_witness :
    (markReadHandler 1 [some 99] dbW9).2 = dbW9 ∧
    (∀ o ∈ [some 1], ∃ v, o = some v ∧
      ∃ n, n ∈ dbW9.notifs ∧ n.id = v ∧ n.userId = 1) ∧
    (∀ m ∈ (markReadHandler 1 [some 1] dbW9).2.notifs,
      (some m.id) ∈ [some 1] → m.read = true) := by
  refine ⟨(C9_mark_read_all_or_nothing 1 [some 99] dbW9).1 (by decide),
    ?_, ?_⟩
  · exact ((C9_mark_read_all_or_nothing 1 [some 1] dbW9).2 (by decide)
      (by decide)).1
  · exact ((C9_mark_read_all_or_nothing 1 [some 1] dbW9).2 (by decide)
      (by decide)).2
